import Mathlib

/-!
Verification of the multi-agent autonomous-repair controller
(`controller.py`, `devops_agent.py`, `agent_caller.py`,
`feature_controller.py`) against its natural-language specification.

The Python modules are shallowly embedded: every definition below is a
direct translation of the corresponding Python function, with dict-based
JSON objects rendered as structures, Python truthiness made explicit, and
the subprocess boundary (git, gh, pytest, the claude CLI) abstracted into
the values those calls return (commit author lists, CI check lists, test
exit codes, prompt templates).
-/

namespace AutoAgent

/-! ## Data model (`contracts.py` schemas and controller state) -/

/-- A File Change as produced by the Coder/Tester stages: a (path, full new
content) pair, applied by whole-file overwrite. -/
structure FileChange where
  path : String
  content : String
deriving DecidableEq, Repr

/-- One entry of `iteration_history` in `controller.main`:
`{"iteration": .., "strategy": .., "strategy_changed": ..}`. -/
structure IterationRecord where
  iteration : Nat
  strategy : String
  strategy_changed : Bool
deriving DecidableEq, Repr

/-- Coder stage output: `{files: [{path, content}], commit_message}`. -/
structure CoderOutput where
  files : List FileChange
  commit_message : String
deriving DecidableEq, Repr

/-- Tester stage output: `{files: [{path, content}], test_strategy}`. -/
structure TesterOutput where
  files : List FileChange
  test_strategy : String
deriving DecidableEq, Repr

/-- One reviewer issue: `{file, line, issue}`. -/
structure ReviewIssue where
  file : String
  line : Nat
  issue : String
deriving DecidableEq, Repr

/-- Reviewer stage output: `{approved, issues, feedback}`. -/
structure ReviewerOutput where
  approved : Bool
  issues : List ReviewIssue
  feedback : String
deriving DecidableEq, Repr

/-- Planner stage output:
`{analysis, files_to_modify, strategy, needs_new_tests, coverage_gaps,
should_strategy_change}`. -/
structure PlannerOutput where
  analysis : String
  files_to_modify : List String
  strategy : String
  needs_new_tests : Bool
  coverage_gaps : List String
  should_strategy_change : Bool
deriving DecidableEq, Repr

/-- One element of the `statusCheckRollup` list returned by
`gh pr view --json statusCheckRollup`; `conclusion` is `none` while the
check has not reported (JSON `null`). -/
structure Check where
  name : String
  conclusion : Option String
  detailsUrl : Option String
deriving DecidableEq, Repr

/-- Python truthiness of an optional string field read with `.get(...)`:
`None` and `""` are falsy. -/
def optStrTruthy : Option String → Bool
  | none => false
  | some s => s ≠ ""

/-! ## `controller.is_repeating_strategy` and the PLAN record step -/

namespace Controller

/-- `controller.is_repeating_strategy(iteration_history, window)`:
`False` when fewer than `window` records exist, otherwise `True` exactly
when the set of the last `window` strategy strings has one element.
Python's `iteration_history[-window:]` is the whole list when
`window == 0` and the last `window` entries otherwise; `len(set(xs)) == 1`
is the cardinality test on the finite set of those strings. -/
def is_repeating_strategy (iteration_history : List IterationRecord)
    (window : Nat) : Bool :=
  if iteration_history.length < window then false
  else
    let recent_strategies :=
      (if window == 0 then iteration_history
       else iteration_history.drop (iteration_history.length - window)).map
        (fun entry => entry.strategy)
    recent_strategies.toFinset.card == 1

/-- Steps 3 of `controller.main` (lines 166–176): append the iteration
record for the planner's strategy, then run the repetition guard with
window 3; the second component is `true` exactly when the run aborts with
the stuck diagnostic. -/
def record_strategy_step (iteration_history : List IterationRecord)
    (iteration : Nat) (strategy : String) (strategy_changed : Bool) :
    List IterationRecord × Bool :=
  let history := iteration_history ++
    [{ iteration := iteration + 1, strategy := strategy,
       strategy_changed := strategy_changed }]
  (history, is_repeating_strategy history 3)

end Controller

/-! ## `devops_agent` safety operations (runaway breaker) -/

namespace DevOpsAgent

/-- `DevOpsAgent.count_agent_commits`: `git log --format=%an -10` yields the
author names of the last (at most) 10 commits; count those equal to
`"agent-bot"`.  `authors` is the full author list, newest first. -/
def count_agent_commits (authors : List String) : Nat :=
  ((authors.take 10).filter (fun author => author == "agent-bot")).length

/-- `DevOpsAgent.check_runaway_protection(max_commits)`: returns `true`
when the breaker trips (the Python calls `exit(1)`). -/
def check_runaway_protection (authors : List String) (max_commits : Nat) :
    Bool :=
  count_agent_commits authors ≥ max_commits

/-- Outcome of the CI-mode prologue of `controller.main` (lines 84–96):
either the breaker aborted the process (nothing after it ran — no git
configuration, no PR lookup, no pipeline stage), or the run proceeded to
configure git as `agent-bot <agent@bot.com>` and look up the open PR. -/
inductive CIStartup where
  | aborted
  | proceeded (git_user git_email : String) (pr_looked_up : Bool)
deriving DecidableEq, Repr

/-- CI-mode prologue of `controller.main`: `check_runaway_protection` runs
first; if it trips the process exits before any change and before any
stage, otherwise git identity is configured and the existing PR reused. -/
def ci_startup (authors : List String) (max_commits : Nat) : CIStartup :=
  if check_runaway_protection authors max_commits then .aborted
  else .proceeded "agent-bot" "agent@bot.com" true

/-! ## `devops_agent` CI operations -/

/-- Result of `DevOpsAgent.get_pr_status`. -/
structure PRStatus where
  all_passed : Bool
  checks : List Check
deriving DecidableEq, Repr

/-- `DevOpsAgent.get_pr_status`: `all_passed` is Python's
`all(check.get("conclusion") == "SUCCESS" for check in checks if
check.get("conclusion"))` — the generator filters out checks whose
`conclusion` is falsy (`null` or `""`) before testing for `"SUCCESS"`. -/
def get_pr_status (checks : List Check) : PRStatus :=
  { all_passed :=
      (checks.filter (fun check => optStrTruthy check.conclusion)).all
        (fun check => check.conclusion == some "SUCCESS")
    checks := checks }

/-- `DevOpsAgent.extract_ci_logs`: one summary line (plus an optional
details line) per check whose conclusion is neither `"SUCCESS"` nor
`null`. -/
def extract_ci_logs (checks : List Check) : String :=
  checks.foldl
    (fun ci_logs check =>
      if check.conclusion != some "SUCCESS" && check.conclusion != none then
        let line := ci_logs ++ "\n" ++ check.name ++ ": " ++
          check.conclusion.getD "" ++ "\n"
        if optStrTruthy check.detailsUrl then
          line ++ "Details: " ++ check.detailsUrl.getD "" ++ "\n"
        else line
      else ci_logs)
    "CI Checks Failed:\n"

end DevOpsAgent

namespace Controller

/-- Outcome of the CHECK_CI step (lines 268–291 of `controller.main`):
either the loop breaks declaring success (and enables auto-merge), or it
continues with the accumulated CI signal, `previous_attempt_failed`
and `previous_failure_reason` for the next iteration. -/
inductive CIDecision where
  | success
  | retry (ci_logs : String) (previous_attempt_failed : Bool)
      (previous_failure_reason : String)
deriving DecidableEq, Repr

/-- The CHECK_CI step of `controller.main`: success requires Python
`ci_status['all_passed'] and ci_status['checks']` (a non-empty check
list); otherwise the per-check failure summaries and the latest workflow
run's log text are concatenated into the CI signal and the failure flag
and reason are set for the next iteration. -/
def check_ci_step (checks : List Check) (run_logs : String) : CIDecision :=
  let ci_status := DevOpsAgent.get_pr_status checks
  if ci_status.all_passed && !ci_status.checks.isEmpty then
    .success
  else
    .retry
      (DevOpsAgent.extract_ci_logs ci_status.checks ++
        "\n\nWorkflow Run Logs:\n" ++ run_logs)
      true "CI checks failed"

/-! ## The RUN_TESTS step -/

/-- Python truthiness of `pr_number` (`None` and `0` are falsy). -/
def prTruthy : Option Nat → Bool
  | none => false
  | some n => n ≠ 0

/-- Outcome of Step 1 of `controller.main` (lines 125–158): either the
loop breaks with success before Planner/Coder run, or it proceeds to
collect files and invoke the Planner. -/
inductive TestStepOutcome where
  | exitSuccess (auto_merge_attempted : Bool)
  | proceed (test_code : Nat) (test_output : String)
deriving DecidableEq, Repr

/-- Step 1 of `controller.main`: on iteration 0 in CI mode with a
non-empty CI signal the local run is skipped and the result marked failed;
then `test_code == 0 and not ci_logs` breaks the loop (enabling auto-merge
when a PR number is present) before any stage is invoked. -/
def run_tests_step (iteration : Nat) (ci_mode : Bool) (ci_logs : String)
    (pr_number : Option Nat) (local_test : Nat × String) : TestStepOutcome :=
  let result :=
    if ci_logs != "" && iteration == 0 && ci_mode then ((1 : Nat), "")
    else local_test
  if result.1 == 0 && ci_logs == "" then .exitSuccess (prTruthy pr_number)
  else .proceed result.1 result.2

/-! ## The TEST merge and the REVIEW decision -/

/-- Step 5 of `controller.main` (line 205):
`changes["files"].extend(test_changes["files"])` — the tester's File
Changes are appended after the coder's. -/
def merge_test_changes (changes : CoderOutput) (test_changes : TesterOutput) :
    CoderOutput :=
  { changes with files := changes.files ++ test_changes.files }

/-- What Steps 6–7 of one iteration of `controller.main` (lines 211–251)
do to the world: the File Changes written to disk, the commit made (if
any), whether a push happened, and the failure flag/reason carried to the
next iteration's Planner call. -/
structure ReviewStepResult where
  writes : List FileChange
  committed : Option String
  pushed : Bool
  previous_attempt_failed : Bool
  previous_failure_reason : Option String
deriving DecidableEq, Repr

/-- Steps 6–7 of `controller.main`: a rejected review (`not
review["approved"]`) sets the failure flag and the reason
`"Reviewer rejected: " + feedback` and `continue`s — the changeset is
never applied, committed or pushed; an approved review applies the whole
changeset, commits with the coder's message, and pushes. -/
def review_apply_step (review : ReviewerOutput) (changes : CoderOutput)
    (previous_attempt_failed : Bool) (previous_failure_reason : Option String) :
    ReviewStepResult :=
  if !review.approved then
    { writes := []
      committed := none
      pushed := false
      previous_attempt_failed := true
      previous_failure_reason := some ("Reviewer rejected: " ++ review.feedback) }
  else
    { writes := changes.files
      committed := some changes.commit_message
      pushed := true
      previous_attempt_failed := previous_attempt_failed
      previous_failure_reason := previous_failure_reason }

end Controller

/-! ## `devops_agent` environment detection and push policy -/

namespace DevOpsAgent

/-- `DevOpsAgent._detect_ci_mode`: CI mode when `CI == "true"` or
`GITHUB_ACTIONS == "true"` or the current branch is neither `main` nor
`master`.  `ci_env`/`gha_env` are the values of those environment
variables (`none` when unset). -/
def detect_ci_mode (ci_env gha_env : Option String)
    (current_branch : String) : Bool :=
  let in_ci := ci_env == some "true" || gha_env == some "true"
  let on_feature_branch := !(current_branch == "main" || current_branch == "master")
  in_ci || on_feature_branch

/-- Branch setup chosen by `controller.main` from the detected mode:
CI mode reuses the branch and its existing PR; local mode creates a fresh
timestamp-named branch. -/
inductive SetupMode where
  | reuseExistingPR
  | createFreshBranch
deriving DecidableEq, Repr

/-- The setup decision of `controller.main` (lines 84–101). -/
def setup_mode (ci_mode : Bool) : SetupMode :=
  if ci_mode then .reuseExistingPR else .createFreshBranch

/-- The push policy of `controller.main` (lines 244–251): in CI mode every
push is forced; in local mode the first push is non-forced and later ones
forced.  Returns the `force` flag passed to `push_changes`. -/
def push_force (ci_mode first_commit_made : Bool) : Bool :=
  if ci_mode then true
  else if first_commit_made then true else false

end DevOpsAgent

/-! ## `agent_caller`: pattern filtering and prompt construction -/

namespace AgentCaller

/-- Glob matching as `fnmatch.fnmatch` performs it for the patterns this
program uses: `*` matches any (possibly empty) character sequence,
every other character matches itself.  Structural recursion on the
pattern: a leading `*` matches iff the rest of the pattern matches some
suffix of the string. -/
def globMatch : List Char → List Char → Bool
  | [], s => s.isEmpty
  | p :: ps, s =>
    if p = '*' then s.tails.any (fun suffix => globMatch ps suffix)
    else
      match s with
      | [] => false
      | c :: cs => p == c && globMatch ps cs

/-- `fnmatch.fnmatch(path, pattern)` on POSIX (no case normalisation). -/
def fnmatch (path pattern : String) : Bool :=
  globMatch pattern.data path.data

/-- `AgentCaller._filter_files`: keep the entries of the repository
snapshot (an insertion-ordered `{path: content}` dict) whose path matches
any of the patterns. -/
def filter_files (repo_state : List (String × String))
    (patterns : List String) : List (String × String) :=
  repo_state.filter (fun kv => patterns.any (fun p => fnmatch kv.1 p))

/-- `AgentCaller._get_specific_files`: keep exactly the requested paths
that exist in the snapshot, in the requested order. -/
def get_specific_files (repo_state : List (String × String))
    (file_paths : List String) : List (String × String) :=
  (file_paths.filterMap (fun path =>
    (repo_state.find? (fun kv => kv.1 == path)).map
      (fun kv => (path, kv.2))))

/-- `AgentCaller._format_files`: `"\n--- {path} ---\n{content}\n"` per
entry. -/
def format_files (files : List (String × String)) : String :=
  files.foldl
    (fun result kv => result ++ "\n--- " ++ kv.1 ++ " ---\n" ++ kv.2 ++ "\n")
    ""

/-- The test-file patterns `call_tester` passes to `_filter_files`. -/
def testPatterns : List String := ["test_*.py", "*_test.py"]

/-- `AgentCaller._build_tester_prompt`: template, the coder's modified
code, the existing test files, and the plan's coverage gaps — nothing
else. -/
def build_tester_prompt (template : String) (modified_code : List FileChange)
    (existing_tests : List (String × String)) (coverage_gaps : List String) :
    String :=
  let code_text := modified_code.foldl
    (fun acc file =>
      acc ++ "\n--- " ++ file.path ++ " ---\n" ++ file.content ++ "\n")
    ""
  let tests_text := format_files existing_tests
  let gaps_text := String.intercalate "\n"
    (coverage_gaps.map (fun gap => "- " ++ gap))
  template ++ "\n\n## Modified Code\n\n" ++ code_text ++
    "\n\n## Existing Tests\n\n" ++ tests_text ++
    "\n\n## Coverage Gaps\n\n" ++ gaps_text ++
    "\n\nOutput your response as raw JSON only (no markdown, no explanations):\n"

/-- `AgentCaller.call_tester`: the prompt sent to the Reasoning Service is
built from the coder's `changes["files"]`, the snapshot filtered to the
test-file patterns, and `plan["coverage_gaps"]` only. -/
def call_tester_payload (template : String) (changes : CoderOutput)
    (repo_state : List (String × String)) (plan : PlannerOutput) : String :=
  build_tester_prompt template changes.files
    (filter_files repo_state testPatterns) plan.coverage_gaps

/-- The reflection block `_build_planner_prompt` inserts when
`previous_attempt_failed` is set (Python renders `None` as `"None"`). -/
def reflection_block (failure_reason : Option String) : String :=
  "\n## Reflection Context\n\n" ++
  "⚠️ The previous repair attempt FAILED.\n\nFailure reason: " ++
  failure_reason.getD "None" ++
  "\n\n**IMPORTANT:** You must analyze why the previous strategy failed and either:\n" ++
  "1. Adjust your strategy if the approach was wrong\n" ++
  "2. Keep the strategy if the implementation was wrong (reviewer feedback)\n\n" ++
  "Output field should_strategy_change: true if changing approach.\n"

/-- `AgentCaller._build_planner_prompt`: template, reflection context
(only when the previous attempt failed), test output, CI logs and the
formatted repository files. -/
def build_planner_prompt (template : String) (test_output ci_logs : String)
    (repository_files : List (String × String))
    (previous_attempt_failed : Bool) (failure_reason : Option String) :
    String :=
  let reflection_text :=
    if previous_attempt_failed then reflection_block failure_reason else ""
  template ++ "\n\n" ++ reflection_text ++ "\n\n## Test Output\n\n" ++
    test_output ++ "\n\n## CI Logs\n\n" ++ ci_logs ++
    "\n\n## Repository Files\n\n" ++ format_files repository_files ++
    "\n\nOutput your response as raw JSON only (no markdown, no explanations):\n"

end AgentCaller

/-! ## Disk content model for the APPLY step of `controller.main`

For the overwrite-ordering claim the disk is a path-keyed association
list; each `Path(file["path"]).write_text(file["content"])` replaces the
entry at that path (or adds one), and later writes win. -/

namespace Disk

/-- One `write_text`: whole-file overwrite at `path`. -/
def writeFile (disk : List (String × String)) (path content : String) :
    List (String × String) :=
  if disk.any (fun kv => kv.1 == path) then
    disk.map (fun kv => if kv.1 == path then (path, content) else kv)
  else disk ++ [(path, content)]

/-- `controller.apply_changes` seen as its effect on disk content: write
every File Change in order. -/
def apply_changes_disk (disk : List (String × String))
    (files : List FileChange) : List (String × String) :=
  files.foldl (fun acc file => writeFile acc file.path file.content) disk

/-- Read a file back from the disk model. -/
def lookupFile (disk : List (String × String)) (path : String) :
    Option String :=
  (disk.find? (fun kv => kv.1 == path)).map (fun kv => kv.2)

end Disk

/-! ## Directory-aware filesystem model for the two `apply_changes`

`controller.apply_changes` calls `Path(p).write_text(c)` directly, which
raises `FileNotFoundError` when the parent directory does not exist;
`feature_controller.apply_changes` first runs
`file_path.parent.mkdir(parents=True, exist_ok=True)`.  Paths are split
on `/` into components; a directory exists when its component list is in
`dirs` (the working directory itself is the empty component list and
always exists). -/

namespace FS

/-- Split a path on `/` (Python `PurePath` components, flat). -/
def splitPathAux : List Char → List Char → List String
  | [], acc => [String.mk acc.reverse]
  | c :: cs, acc =>
    if c = '/' then String.mk acc.reverse :: splitPathAux cs []
    else splitPathAux cs (c :: acc)

/-- Components of a path string. -/
def splitPath (path : String) : List String :=
  splitPathAux path.data []

/-- Filesystem state: the existing directories and the files' contents,
both keyed by component lists. -/
structure State where
  dirs : List (List String)
  files : List (List String × String)
deriving DecidableEq, Repr

/-- Overwrite/insert a file entry. -/
def writeEntry (files : List (List String × String)) (comps : List String)
    (content : String) : List (List String × String) :=
  if files.any (fun kv => kv.1 == comps) then
    files.map (fun kv => if kv.1 == comps then (comps, content) else kv)
  else files ++ [(comps, content)]

/-- `Path(path).write_text(content)`: succeeds only when the parent
directory exists (the working directory, component list `[]`, always
does); on a missing parent it raises — modelled as `.error path`. -/
def write_text (fs : State) (path content : String) : Except String State :=
  let comps := splitPath path
  let parent := comps.dropLast
  if parent = [] ∨ parent ∈ fs.dirs then
    .ok { fs with files := writeEntry fs.files comps content }
  else .error path

/-- The non-empty prefixes of a directory's component list: the chain of
directories `mkdir(parents=True)` creates. -/
def dirPrefixes (dir : List String) : List (List String) :=
  (List.range dir.length).map (fun i => dir.take (i + 1))

/-- `file_path.parent.mkdir(parents=True, exist_ok=True)`. -/
def mkdir_parents (fs : State) (dir : List String) : State :=
  { fs with dirs := fs.dirs ++ dirPrefixes dir }

end FS

namespace Controller

/-- `controller.apply_changes`: `Path(file["path"]).write_text(...)` for
each File Change in order — no directory creation, so the first write
whose parent directory is missing raises and aborts the sequence. -/
def apply_changes (fs : FS.State) (files : List FileChange) :
    Except String FS.State :=
  files.foldlM (fun acc file => FS.write_text acc file.path file.content) fs

end Controller

namespace FeatureController

/-- `feature_controller.apply_changes`: for each File Change, create the
parent directories (`mkdir(parents=True, exist_ok=True)`) and then write
the file. -/
def apply_changes (fs : FS.State) (files : List FileChange) :
    Except String FS.State :=
  files.foldlM
    (fun acc file =>
      FS.write_text
        (FS.mkdir_parents acc (FS.splitPath file.path).dropLast)
        file.path file.content)
    fs

end FeatureController

/-! ## Helper lemmas -/

/-- A three-element list whose `toFinset` is a singleton is constant, and
conversely. -/
lemma toFinset_card_one_three (a b c : String) :
    [a, b, c].toFinset.card = 1 ↔ ∃ t, [a, b, c] = [t, t, t] := by
  constructor
  · intro h
    obtain ⟨x, hx⟩ := Finset.card_eq_one.mp h
    have ha : a ∈ [a, b, c].toFinset := by simp
    have hb : b ∈ [a, b, c].toFinset := by simp
    have hc : c ∈ [a, b, c].toFinset := by simp
    rw [hx, Finset.mem_singleton] at ha hb hc
    exact ⟨x, by rw [ha, hb, hc]⟩
  · rintro ⟨t, ht⟩
    obtain ⟨rfl, rfl, rfl⟩ : a = t ∧ b = t ∧ c = t := by
      injection ht with h1 h2
      injection h2 with h2 h3
      injection h3 with h3 _
      exact ⟨h1, h2, h3⟩
    simp

/-- Characterisation of `is_repeating_strategy` at window 3: it returns
`true` exactly when the history holds at least three records and the last
three strategy strings coincide. -/
lemma is_repeating_strategy_three_iff (h : List IterationRecord) :
    Controller.is_repeating_strategy h 3 = true ↔
      3 ≤ h.length ∧
        ∃ t, (h.map IterationRecord.strategy).drop (h.length - 3) = [t, t, t] := by
  unfold Controller.is_repeating_strategy
  by_cases hl : h.length < 3
  · rw [if_pos hl]
    simp only [Bool.false_eq_true, false_iff, not_and]
    intro h3
    omega
  · rw [if_neg hl]
    have h3 : 3 ≤ h.length := by omega
    have hwin : ((3 : Nat) == 0) = false := rfl
    rw [hwin]
    simp only [Bool.false_eq_true, if_false]
    rw [show (fun entry : IterationRecord => entry.strategy) =
      IterationRecord.strategy from rfl]
    have hlen : ((h.drop (h.length - 3)).map IterationRecord.strategy).length = 3 := by
      simp only [List.length_map, List.length_drop]
      omega
    obtain ⟨a, b, c, habc⟩ := List.length_eq_three.mp hlen
    simp only [← List.map_drop]
    simp only [habc]
    rw [beq_iff_eq, toFinset_card_one_three]
    exact (and_iff_right h3).symm

/-! ## Claim theorems -/

/-- C1: the repetition guard with window 3 trips exactly on histories
whose last three recorded strategy strings are all identical (so never on
histories with fewer than three records, and never when some pair in the
last-three window differs), and `record_strategy_step` runs that guard on
the history immediately after appending the new record — the second
component `true` is the abort-with-stuck-diagnostic decision of
`controller.main`. -/
theorem C1_repetition_guard :
    (∀ h : List IterationRecord,
      Controller.is_repeating_strategy h 3 = true ↔
        3 ≤ h.length ∧
          ∃ t, (h.map IterationRecord.strategy).drop (h.length - 3) = [t, t, t]) ∧
    (∀ (hist : List IterationRecord) (it : Nat) (s : String) (ch : Bool),
      Controller.record_strategy_step hist it s ch =
        (hist ++ [⟨it + 1, s, ch⟩],
         Controller.is_repeating_strategy (hist ++ [⟨it + 1, s, ch⟩]) 3)) := by
  refine ⟨is_repeating_strategy_three_iff, ?_⟩
  intro hist it s ch
  rfl

/-- C2: the CI-mode prologue aborts, before configuring git and before
any stage runs, exactly when at least `max_commits` (default 7) of the
last 10 commits were authored by `agent-bot`; below the threshold the run
proceeds to configure git and reuse the existing PR. -/
theorem C2_runaway_breaker :
    ∀ (authors : List String) (max_commits : Nat),
      (DevOpsAgent.ci_startup authors max_commits = .aborted ↔
        max_commits ≤ DevOpsAgent.count_agent_commits authors) ∧
      (DevOpsAgent.count_agent_commits authors < max_commits →
        DevOpsAgent.ci_startup authors max_commits =
          .proceeded "agent-bot" "agent@bot.com" true) := by
  intro authors max_commits
  unfold DevOpsAgent.ci_startup DevOpsAgent.check_runaway_protection
  by_cases h : max_commits ≤ DevOpsAgent.count_agent_commits authors
  · refine ⟨by simp [ge_iff_le, h], ?_⟩
    intro hlt
    exact absurd h (by omega)
  · exact ⟨by simp [ge_iff_le, h], fun _ => by simp [ge_iff_le, h]⟩

/-- The `all_passed` field quantifies only over checks whose `conclusion`
is truthy (non-`null`, non-empty). -/
lemma all_passed_filter_iff (checks : List Check) :
    ((checks.filter (fun check => optStrTruthy check.conclusion)).all
        (fun check => check.conclusion == some "SUCCESS") = true) ↔
      ∀ c ∈ checks, optStrTruthy c.conclusion = true →
        c.conclusion = some "SUCCESS" := by
  simp only [List.all_eq_true, List.mem_filter, and_imp, beq_iff_eq]

/-- C3 (counterexample): a pull request whose single check has not yet
reported (its `conclusion` is `null`) makes the CHECK_CI step declare
success, although not every returned check is reporting success — the
claim's "only when every check ... is present and reporting success" is
false on the code. -/
theorem C3_counterexample :
    Controller.check_ci_step
        [{ name := "build", conclusion := none, detailsUrl := none }] "" =
      .success ∧
    ¬ (∀ c ∈ [({ name := "build", conclusion := none, detailsUrl := none } : Check)],
        c.conclusion = some "SUCCESS") := by
  constructor
  · rfl
  · intro h
    have := h _ (List.mem_cons_self _ _)
    simp at this

/-- C3 (amended): after pushing, the controller declares success
(transitions to DONE and enables auto-merge) exactly when the check list
is non-empty and every check with a truthy (non-`null`, non-empty)
conclusion reports `"SUCCESS"` — checks that have not reported are
ignored by the gate; in every other case the controller concatenates the
per-check failure summaries and the latest workflow run's log text into
the CI signal, sets `previous_attempt_failed = true` with reason
`"CI checks failed"`, and loops. -/
theorem C3_ci_gate_amended :
    ∀ (checks : List Check) (run_logs : String),
      (Controller.check_ci_step checks run_logs = .success ↔
        checks ≠ [] ∧
          ∀ c ∈ checks, optStrTruthy c.conclusion = true →
            c.conclusion = some "SUCCESS") ∧
      (Controller.check_ci_step checks run_logs ≠ .success →
        Controller.check_ci_step checks run_logs =
          .retry
            (DevOpsAgent.extract_ci_logs checks ++
              "\n\nWorkflow Run Logs:\n" ++ run_logs)
            true "CI checks failed") := by
  intro checks run_logs
  unfold Controller.check_ci_step DevOpsAgent.get_pr_status
  dsimp only
  constructor
  · split
    next hcond =>
      rcases Bool.and_eq_true_iff.mp hcond with ⟨h1, h2⟩
      simp only [Bool.not_eq_true'] at h2
      simp only [eq_self_iff_true, true_iff]
      refine ⟨?_, all_passed_filter_iff checks |>.mp h1⟩
      intro he
      rw [he] at h2
      simp at h2
    next hcond =>
      constructor
      · intro h
        exact Controller.CIDecision.noConfusion h
      · rintro ⟨hne, hall⟩
        refine absurd (Bool.and_eq_true_iff.mpr
          ⟨(all_passed_filter_iff checks).mpr hall, ?_⟩) hcond
        simp [List.isEmpty_iff, hne]
  · split
    next hcond =>
      intro hns
      exact absurd rfl hns
    next hcond =>
      intro _
      rfl

/-- C8: when the local test run exits 0 and the accumulated CI signal is
empty, the RUN_TESTS step breaks out of the loop as a success in the same
iteration (attempting auto-merge when a PR exists) — the Planner and
Coder stages are never reached. -/
theorem C8_tests_pass_short_circuit :
    ∀ (iteration : Nat) (ci_mode : Bool) (pr_number : Option Nat)
      (test_output : String),
      Controller.run_tests_step iteration ci_mode "" pr_number (0, test_output) =
        .exitSuccess (Controller.prTruthy pr_number) := by
  intro iteration ci_mode pr_number test_output
  rfl

/-- C9: a CI status query returning zero checks is treated as
not-yet-passed: `all_passed` is (vacuously) true, but the success gate
also requires a non-empty check list, so the CHECK_CI step loops with the
failure flag set instead of declaring success. -/
theorem C9_zero_checks_not_success :
    ∀ run_logs : String,
      (DevOpsAgent.get_pr_status []).all_passed = true ∧
      Controller.check_ci_step [] run_logs ≠ .success ∧
      Controller.check_ci_step [] run_logs =
        .retry ("CI Checks Failed:\n" ++ "\n\nWorkflow Run Logs:\n" ++ run_logs)
          true "CI checks failed" := by
  intro run_logs
  refine ⟨rfl, ?_, rfl⟩
  intro h
  exact Controller.CIDecision.noConfusion h

/-- The planner prompt built with `previous_attempt_failed = true` embeds
the failure reason verbatim in its reflection context. -/
lemma build_planner_prompt_contains (template test_output ci_logs : String)
    (repository_files : List (String × String)) (reason : String) :
    ∃ pre post,
      AgentCaller.build_planner_prompt template test_output ci_logs
          repository_files true (some reason) = pre ++ reason ++ post := by
  refine ⟨template ++ "\n\n" ++ ("\n## Reflection Context\n\n" ++
      "⚠️ The previous repair attempt FAILED.\n\nFailure reason: "),
    "\n\n**IMPORTANT:** You must analyze why the previous strategy failed and either:\n" ++
      "1. Adjust your strategy if the approach was wrong\n" ++
      "2. Keep the strategy if the implementation was wrong (reviewer feedback)\n\n" ++
      "Output field should_strategy_change: true if changing approach.\n" ++
      ("\n\n## Test Output\n\n" ++ test_output ++ "\n\n## CI Logs\n\n" ++
        ci_logs ++ "\n\n## Repository Files\n\n" ++
        AgentCaller.format_files repository_files ++
        "\n\nOutput your response as raw JSON only (no markdown, no explanations):\n"), ?_⟩
  unfold AgentCaller.build_planner_prompt AgentCaller.reflection_block
  simp only [if_true, Option.getD_some, String.append_assoc]

/-- C4: when the reviewer returns `approved = false`, the iteration writes
no File Change to disk, makes no commit and no push (the changeset is
discarded whole), carries `previous_attempt_failed = true` with the reason
`"Reviewer rejected: " + feedback` into the next iteration, and the next
Planner prompt built from that state contains the reviewer's feedback
text verbatim. -/
theorem C4_reviewer_rejection
    (review : ReviewerOutput) (changes : CoderOutput)
    (prevFailed : Bool) (prevReason : Option String)
    (template test_output ci_logs : String)
    (repository_files : List (String × String))
    (hrej : review.approved = false) :
    (Controller.review_apply_step review changes prevFailed prevReason).writes = [] ∧
    (Controller.review_apply_step review changes prevFailed prevReason).committed = none ∧
    (Controller.review_apply_step review changes prevFailed prevReason).pushed = false ∧
    (Controller.review_apply_step review changes prevFailed
        prevReason).previous_attempt_failed = true ∧
    (Controller.review_apply_step review changes prevFailed
        prevReason).previous_failure_reason =
      some ("Reviewer rejected: " ++ review.feedback) ∧
    ∃ pre post,
      AgentCaller.build_planner_prompt template test_output ci_logs
          repository_files
          (Controller.review_apply_step review changes prevFailed
            prevReason).previous_attempt_failed
          (Controller.review_apply_step review changes prevFailed
            prevReason).previous_failure_reason =
        pre ++ review.feedback ++ post := by
  have hstep : Controller.review_apply_step review changes prevFailed prevReason =
      { writes := [], committed := none, pushed := false,
        previous_attempt_failed := true,
        previous_failure_reason :=
          some ("Reviewer rejected: " ++ review.feedback) } := by
    unfold Controller.review_apply_step
    rw [hrej]
    rfl
  rw [hstep]
  refine ⟨rfl, rfl, rfl, rfl, rfl, ?_⟩
  obtain ⟨pre, post, h⟩ := build_planner_prompt_contains template test_output
    ci_logs repository_files ("Reviewer rejected: " ++ review.feedback)
  refine ⟨pre ++ "Reviewer rejected: ", post, ?_⟩
  rw [h]
  simp [String.append_assoc]

/-- Witness for C4 at a concrete rejected review. -/
theorem C4_reviewer_rejection_witness :
    (Controller.review_apply_step ⟨false, [], "needs a regression test"⟩
        ⟨[⟨"a.py", "code"⟩], "fix"⟩ false none).writes = [] ∧
    (Controller.review_apply_step ⟨false, [], "needs a regression test"⟩
        ⟨[⟨"a.py", "code"⟩], "fix"⟩ false none).committed = none ∧
    (Controller.review_apply_step ⟨false, [], "needs a regression test"⟩
        ⟨[⟨"a.py", "code"⟩], "fix"⟩ false none).pushed = false ∧
    (Controller.review_apply_step ⟨false, [], "needs a regression test"⟩
        ⟨[⟨"a.py", "code"⟩], "fix"⟩ false none).previous_attempt_failed = true ∧
    (Controller.review_apply_step ⟨false, [], "needs a regression test"⟩
        ⟨[⟨"a.py", "code"⟩], "fix"⟩ false none).previous_failure_reason =
      some ("Reviewer rejected: " ++ "needs a regression test") ∧
    ∃ pre post,
      AgentCaller.build_planner_prompt "PLANNER" "1 failed" "" [("m.py", "x")]
          (Controller.review_apply_step ⟨false, [], "needs a regression test"⟩
            ⟨[⟨"a.py", "code"⟩], "fix"⟩ false none).previous_attempt_failed
          (Controller.review_apply_step ⟨false, [], "needs a regression test"⟩
            ⟨[⟨"a.py", "code"⟩], "fix"⟩ false none).previous_failure_reason =
        pre ++ "needs a regression test" ++ post :=
  C4_reviewer_rejection ⟨false, [], "needs a regression test"⟩
    ⟨[⟨"a.py", "code"⟩], "fix"⟩ false none "PLANNER" "1 failed" "" [("m.py", "x")] rfl

/-- C5: the Tester-stage payload is a function only of the coder's
modified files, the repository entries matching the test-file patterns
(`test_*.py`, `*_test.py`), and the plan's coverage gaps: any two coder
outputs, repository states and plans agreeing on exactly those three
inputs give byte-identical prompts, so repository states differing only
in non-test files yield identical Tester payloads (the builder takes no
git/version-control input at all). -/
theorem C5_tester_payload_isolation
    (template : String) (changesA changesB : CoderOutput)
    (repoA repoB : List (String × String)) (planA planB : PlannerOutput)
    (hfiles : changesA.files = changesB.files)
    (htests : AgentCaller.filter_files repoA AgentCaller.testPatterns =
      AgentCaller.filter_files repoB AgentCaller.testPatterns)
    (hgaps : planA.coverage_gaps = planB.coverage_gaps) :
    AgentCaller.call_tester_payload template changesA repoA planA =
      AgentCaller.call_tester_payload template changesB repoB planB := by
  unfold AgentCaller.call_tester_payload
  rw [hfiles, htests, hgaps]

/-- Witness for C5: two repository states that differ in a non-test file
(and two plans/coder outputs differing outside the allowed inputs) give
the same Tester payload. -/
theorem C5_tester_payload_isolation_witness :
    AgentCaller.call_tester_payload "TESTER"
        ⟨[⟨"util.py", "def f(): return 1\n"⟩], "fix util"⟩
        [("util.py", "old body"), ("test_util.py", "def test_f(): pass\n")]
        ⟨"analysis A", ["util.py"], "strategy A", true, ["edge cases"], false⟩ =
      AgentCaller.call_tester_payload "TESTER"
        ⟨[⟨"util.py", "def f(): return 1\n"⟩], "different commit message"⟩
        [("util.py", "completely different body"), ("unrelated.py", "zzz"),
          ("test_util.py", "def test_f(): pass\n")]
        ⟨"analysis B", ["other.py"], "strategy B", false, ["edge cases"], true⟩ :=
  C5_tester_payload_isolation "TESTER" _ _ _ _ _ _ rfl (by decide) rfl

/-- Overwriting a different path leaves a lookup unchanged (map branch of
`writeFile`). -/
lemma find_map_update (disk : List (String × String)) (q c p : String)
    (h : q ≠ p) :
    ((disk.map (fun kv => if kv.1 == q then (q, c) else kv)).find?
        (fun kv => kv.1 == p)) =
      disk.find? (fun kv => kv.1 == p) := by
  induction disk with
  | nil => rfl
  | cons kv rest ih =>
    simp only [List.map_cons]
    by_cases hk : kv.1 = q
    · rw [if_pos (by simp [hk])]
      rw [List.find?_cons_of_neg _ (by simp [h]),
        List.find?_cons_of_neg _ (by simp [hk, h])]
      exact ih
    · rw [if_neg (by simp [hk])]
      by_cases hp : kv.1 = p
      · rw [List.find?_cons_of_pos _ (by simp [hp]),
          List.find?_cons_of_pos _ (by simp [hp])]
      · rw [List.find?_cons_of_neg _ (by simp [hp]),
          List.find?_cons_of_neg _ (by simp [hp])]
        exact ih

/-- Appending an entry for a different path leaves a lookup unchanged
(append branch of `writeFile`). -/
lemma find_append_single (disk : List (String × String)) (q c p : String)
    (h : q ≠ p) :
    ((disk ++ [(q, c)]).find? (fun kv => kv.1 == p)) =
      disk.find? (fun kv => kv.1 == p) := by
  induction disk with
  | nil =>
    simp only [List.nil_append]
    rw [List.find?_cons_of_neg _ (by simp [h])]
  | cons kv rest ih =>
    simp only [List.cons_append]
    by_cases hp : kv.1 = p
    · rw [List.find?_cons_of_pos _ (by simp [hp]),
        List.find?_cons_of_pos _ (by simp [hp])]
    · rw [List.find?_cons_of_neg _ (by simp [hp]),
        List.find?_cons_of_neg _ (by simp [hp])]
      exact ih

/-- A single whole-file overwrite at path `q` does not change the content
read back at a different path `p`. -/
lemma lookup_writeFile_ne (disk : List (String × String)) (q c p : String)
    (h : q ≠ p) :
    Disk.lookupFile (Disk.writeFile disk q c) p = Disk.lookupFile disk p := by
  unfold Disk.writeFile Disk.lookupFile
  by_cases hany : (disk.any (fun kv => kv.1 == q)) = true
  · rw [if_pos hany, find_map_update disk q c p h]
  · rw [if_neg hany, find_append_single disk q c p h]

/-- Applying a changeset touching none of path `p` leaves the content at
`p` unchanged. -/
lemma lookup_apply_not_written (files : List FileChange) :
    ∀ (disk : List (String × String)) (p : String),
      (∀ f ∈ files, f.path ≠ p) →
      Disk.lookupFile (Disk.apply_changes_disk disk files) p =
        Disk.lookupFile disk p := by
  induction files with
  | nil => intro disk p _; rfl
  | cons f rest ih =>
    intro disk p hall
    unfold Disk.apply_changes_disk at ih ⊢
    simp only [List.foldl_cons]
    rw [ih (Disk.writeFile disk f.path f.content) p
      (fun g hg => hall g (List.mem_cons_of_mem _ hg))]
    exact lookup_writeFile_ne disk f.path f.content p (hall f (List.mem_cons_self _ _))

/-- C6 (counterexample): the code enforces no path isolation between the
tester and the coder — when the tester emits a File Change at a path the
coder also wrote (`a.py`), the merged changeset applies the tester's
content last, so the coder's path does NOT end up on disk with the
coder's content. -/
theorem C6_counterexample :
    (Controller.merge_test_changes ⟨[⟨"a.py", "c1"⟩], "m"⟩
        ⟨[⟨"a.py", "t1"⟩], "s"⟩).files =
      [⟨"a.py", "c1"⟩, ⟨"a.py", "t1"⟩] ∧
    Disk.lookupFile
        (Disk.apply_changes_disk []
          (Controller.merge_test_changes ⟨[⟨"a.py", "c1"⟩], "m"⟩
            ⟨[⟨"a.py", "t1"⟩], "s"⟩).files)
        "a.py" = some "t1" ∧
    Disk.lookupFile
        (Disk.apply_changes_disk []
          (Controller.merge_test_changes ⟨[⟨"a.py", "c1"⟩], "m"⟩
            ⟨[⟨"a.py", "t1"⟩], "s"⟩).files)
        "a.py" ≠ some "c1" := by
  refine ⟨rfl, rfl, ?_⟩
  intro h
  simp [Disk.apply_changes_disk, Disk.writeFile, Disk.lookupFile,
    Controller.merge_test_changes] at h

/-- C6 (amended): the tester's File Changes are appended to the changeset
after the coder's; the code itself enforces no path isolation, but
whenever the tester's paths are disjoint from the coder's (the documented
intent), every coder path ends up on disk after APPLY with exactly the
content the coder-only changeset would have produced. -/
theorem C6_tester_append_amended
    (disk : List (String × String)) (changes : CoderOutput)
    (test_changes : TesterOutput) :
    (Controller.merge_test_changes changes test_changes).files =
      changes.files ++ test_changes.files ∧
    ((∀ tf ∈ test_changes.files, ∀ cf ∈ changes.files, tf.path ≠ cf.path) →
      ∀ cf ∈ changes.files,
        Disk.lookupFile
            (Disk.apply_changes_disk disk
              (Controller.merge_test_changes changes test_changes).files)
            cf.path =
          Disk.lookupFile (Disk.apply_changes_disk disk changes.files)
            cf.path) := by
  refine ⟨rfl, ?_⟩
  intro hdisj cf hcf
  show Disk.lookupFile
      (Disk.apply_changes_disk disk (changes.files ++ test_changes.files))
      cf.path = _
  unfold Disk.apply_changes_disk
  rw [List.foldl_append]
  exact lookup_apply_not_written test_changes.files _ cf.path
    (fun tf htf => hdisj tf htf cf hcf)

/-- The parent directory of `path` already exists in `fs` (the working
directory always does): the condition under which a bare `write_text`
succeeds. -/
def parent_ok (fs : FS.State) (path : String) : Prop :=
  (FS.splitPath path).dropLast = [] ∨ (FS.splitPath path).dropLast ∈ fs.dirs

/-- `mkdir(parents=True)` creates the directory itself (last prefix). -/
lemma mem_dirPrefixes_self (dir : List String) (h : dir ≠ []) :
    dir ∈ FS.dirPrefixes dir := by
  unfold FS.dirPrefixes
  have hlen : 0 < dir.length := List.length_pos.mpr h
  refine List.mem_map.mpr ⟨dir.length - 1, List.mem_range.mpr (by omega), ?_⟩
  rw [show dir.length - 1 + 1 = dir.length from by omega]
  exact List.take_length dir

/-- After creating the parent directories, a write always succeeds. -/
lemma feature_write_ok (fs : FS.State) (path content : String) :
    ∃ fs2,
      FS.write_text (FS.mkdir_parents fs (FS.splitPath path).dropLast)
        path content = .ok fs2 := by
  unfold FS.write_text FS.mkdir_parents
  by_cases h : (FS.splitPath path).dropLast = []
  · rw [if_pos (Or.inl h)]
    exact ⟨_, rfl⟩
  · rw [if_pos (Or.inr (List.mem_append_right _ (mem_dirPrefixes_self _ h)))]
    exact ⟨_, rfl⟩

/-- The feature-pipeline APPLY never fails: parent directories are created
before every write. -/
lemma feature_apply_isOk (files : List FileChange) :
    ∀ fs : FS.State, ∃ fs2, FeatureController.apply_changes fs files = .ok fs2 := by
  induction files with
  | nil => intro fs; exact ⟨fs, rfl⟩
  | cons f rest ih =>
    intro fs
    unfold FeatureController.apply_changes at ih ⊢
    rw [List.foldlM_cons]
    obtain ⟨fs1, h1⟩ := feature_write_ok fs f.path f.content
    rw [h1]
    exact ih fs1

/-- A successful bare write never changes the directory set. -/
lemma write_text_dirs (fs fs2 : FS.State) (path content : String)
    (h : FS.write_text fs path content = .ok fs2) : fs2.dirs = fs.dirs := by
  unfold FS.write_text at h
  dsimp only at h
  split at h
  · cases h
    rfl
  · cases h

/-- A bare write succeeds exactly when the parent directory exists. -/
lemma write_text_ok_iff (fs : FS.State) (path content : String) :
    (∃ fs2, FS.write_text fs path content = .ok fs2) ↔ parent_ok fs path := by
  unfold FS.write_text parent_ok
  dsimp only
  split
  next h => exact ⟨fun _ => h, fun _ => ⟨_, rfl⟩⟩
  next h =>
    constructor
    · rintro ⟨fs2, hh⟩
      cases hh
    · intro hp
      exact absurd hp h

/-- The repair-loop APPLY (`controller.apply_changes`) succeeds exactly
when every File Change's parent directory already exists — the step never
creates directories, and the directory set is unchanged throughout. -/
lemma controller_apply_isOk_iff (files : List FileChange) :
    ∀ fs : FS.State,
      (∃ fs2, Controller.apply_changes fs files = .ok fs2) ↔
        ∀ f ∈ files, parent_ok fs f.path := by
  induction files with
  | nil =>
    intro fs
    simp only [List.not_mem_nil, false_implies, implies_true, iff_true]
    exact ⟨fs, rfl⟩
  | cons f rest ih =>
    intro fs
    unfold Controller.apply_changes at ih ⊢
    rw [List.foldlM_cons]
    by_cases hok : ∃ fs1, FS.write_text fs f.path f.content = .ok fs1
    · obtain ⟨fs1, hw⟩ := hok
      rw [hw]
      have hp : parent_ok fs f.path := (write_text_ok_iff fs f.path f.content).mp ⟨fs1, hw⟩
      have hd : fs1.dirs = fs.dirs := write_text_dirs fs fs1 f.path f.content hw
      have hpeq : ∀ q, parent_ok fs1 q ↔ parent_ok fs q := by
        intro q
        unfold parent_ok
        rw [hd]
      rw [show ((Except.ok fs1 : Except String FS.State) >>=
        fun b => List.foldlM (fun acc file =>
          FS.write_text acc file.path file.content) b rest) =
        List.foldlM (fun acc file =>
          FS.write_text acc file.path file.content) fs1 rest from rfl]
      rw [ih fs1]
      constructor
      · intro hall g hg
        rcases List.mem_cons.mp hg with hg' | hg'
        · rw [hg']
          exact hp
        · exact (hpeq g.path).mp (hall g hg')
      · intro hall g hg
        exact (hpeq g.path).mpr (hall g (List.mem_cons_of_mem _ hg))
    · have herr : ∃ e, FS.write_text fs f.path f.content = .error e := by
        cases hw : FS.write_text fs f.path f.content with
        | ok fs1 => exact absurd ⟨fs1, hw⟩ hok
        | error e => exact ⟨e, rfl⟩
      obtain ⟨e, hw⟩ := herr
      rw [hw]
      constructor
      · rintro ⟨fs2, h2⟩
        cases h2
      · intro hall
        exact absurd ((write_text_ok_iff fs f.path f.content).mpr
          (hall f (List.mem_cons_self _ _))) hok

/-- C7 (counterexample): `controller.apply_changes` does not create parent
directories — applying a File Change at `newdir/a.py` on a tree without
`newdir` raises (`FileNotFoundError`), while the feature-pipeline
`apply_changes` succeeds on the same input by creating the directory. -/
theorem C7_counterexample :
    Controller.apply_changes ⟨[], []⟩ [⟨"newdir/a.py", "x"⟩] =
      .error "newdir/a.py" ∧
    FeatureController.apply_changes ⟨[], []⟩ [⟨"newdir/a.py", "x"⟩] =
      .ok ⟨[["newdir"]], [(["newdir", "a.py"], "x")]⟩ := by
  exact ⟨rfl, rfl⟩

/-- C7 (amended): the feature-pipeline APPLY
(`feature_controller.apply_changes`) writes every File Change as a
whole-file overwrite, creating parent directories as needed, and succeeds
on every changeset; the repair-loop APPLY (`controller.apply_changes`)
writes whole-file overwrites without creating directories and succeeds
exactly when every File Change's parent directory already exists. -/
theorem C7_apply_amended :
    ∀ (fs : FS.State) (files : List FileChange),
      (∃ fs2, FeatureController.apply_changes fs files = .ok fs2) ∧
      ((∃ fs2, Controller.apply_changes fs files = .ok fs2) ↔
        ∀ f ∈ files, parent_ok fs f.path) := by
  intro fs files
  exact ⟨feature_apply_isOk files fs, controller_apply_isOk_iff files fs⟩

/-- C10: execution-mode detection returns CI mode iff `CI` is `"true"`,
`GITHUB_ACTIONS` is `"true"`, or the current branch is neither `main` nor
`master`; whenever CI mode is detected — in particular on a purely local
run on any feature branch — no fresh branch is created (the existing PR's
branch is reused) and every push is forced. -/
theorem C10_ci_mode_detection :
    ∀ (ci_env gha_env : Option String) (current_branch : String)
      (first_commit_made : Bool),
      (DevOpsAgent.detect_ci_mode ci_env gha_env current_branch = true ↔
        (ci_env = some "true" ∨ gha_env = some "true" ∨
          (current_branch ≠ "main" ∧ current_branch ≠ "master"))) ∧
      (DevOpsAgent.detect_ci_mode ci_env gha_env current_branch = true →
        DevOpsAgent.setup_mode
            (DevOpsAgent.detect_ci_mode ci_env gha_env current_branch) =
          .reuseExistingPR ∧
        DevOpsAgent.push_force
            (DevOpsAgent.detect_ci_mode ci_env gha_env current_branch)
            first_commit_made = true) := by
  intro ci_env gha_env current_branch first_commit_made
  constructor
  · unfold DevOpsAgent.detect_ci_mode
    simp [Bool.or_eq_true, beq_iff_eq, not_or]
    tauto
  · intro h
    rw [h]
    exact ⟨rfl, rfl⟩

end AutoAgent
